import Mathlib

/-!
Verification of the NYC taxi dashboard pipeline (`src/app.py`).

The pipeline loads a trip table, derives time/cost columns
(`with_columns`, app.py lines 57-71), applies the quality filter
(lines 73-77), the seeded probabilistic sampler (lines 78-79), the
interactive filter (lines 106-110), the scalar metrics (lines 117-121)
and the aggregates `top_pickups` (lines 128-135) and the day-of-week x
hour heatmap (lines 212-225).

Timestamps are modelled as seconds since the epoch (Int), money and
distance columns as rationals.  Derived columns are functions of the
raw columns, exactly as polars' `with_columns` makes them.
-/

namespace TaxiApp

/-- A raw trip record: the columns of the parquet file that the code
reads (app.py: `tpep_pickup_datetime`, `tpep_dropoff_datetime`,
`PULocationID`, `fare_amount`, `tip_amount`, `total_amount`,
`trip_distance`, `payment_type`).  Timestamps are seconds since epoch. -/
structure Trip where
  tpep_pickup_datetime : Int
  tpep_dropoff_datetime : Int
  PULocationID : Int
  fare_amount : ℚ
  tip_amount : ℚ
  total_amount : ℚ
  trip_distance : ℚ
  payment_type : Int
  deriving Repr, DecidableEq

/-- A row of the zone lookup table (`taxi_zone_lookup.csv`):
`LocationID`, `Zone`, `Borough`. -/
structure ZoneRow where
  LocationID : Int
  Zone : String
  Borough : String
  deriving Repr, DecidableEq

/-- Derived column `pickup_hour` (app.py line 58):
`tpep_pickup_datetime.dt.hour()`. -/
def pickup_hour (r : Trip) : Int :=
  (r.tpep_pickup_datetime / 3600) % 24

/-- Derived column `pickup_weekday` (app.py line 59):
`tpep_pickup_datetime.dt.weekday()`, Monday = 1 .. Sunday = 7
(the epoch day 1970-01-01 was a Thursday). -/
def pickup_weekday (r : Trip) : Int :=
  (r.tpep_pickup_datetime / 86400 + 3) % 7 + 1

/-- Derived column `pickup_date` (app.py line 60):
`tpep_pickup_datetime.dt.date()`, modelled as the epoch-day number. -/
def pickup_date (r : Trip) : Int :=
  r.tpep_pickup_datetime / 86400

/-- Derived column `trip_duration_min` (app.py lines 62-65):
`(dropoff - pickup).total_seconds() / 60`. -/
def trip_duration_min (r : Trip) : ℚ :=
  ((r.tpep_dropoff_datetime : ℚ) - (r.tpep_pickup_datetime : ℚ)) / 60

/-- Derived column `tip_pct` (app.py lines 67-71):
`tip_amount / fare_amount * 100` when `fare_amount > 0`, else `0`. -/
def tip_pct (r : Trip) : ℚ :=
  if 0 < r.fare_amount then r.tip_amount / r.fare_amount * 100 else 0

/-- The quality-filter predicate of app.py lines 73-77:
`0 < fare_amount < 200`, `0 < trip_distance < 50`,
`1 < trip_duration_min < 180`. -/
def qualityPred (r : Trip) : Bool :=
  decide (0 < r.fare_amount) && decide (r.fare_amount < 200) &&
  decide (0 < r.trip_distance) && decide (r.trip_distance < 50) &&
  decide (1 < trip_duration_min r) && decide (trip_duration_min r < 180)

/-- The Quality Filter (app.py lines 73-77): keep exactly the rows
satisfying all three bounds. -/
def qualityFilter (t : List Trip) : List Trip :=
  t.filter qualityPred

/-- The three bounds of the §3 invariant, as a proposition on one row. -/
def QualityBounds (r : Trip) : Prop :=
  0 < r.fare_amount ∧ r.fare_amount < 200 ∧
  0 < r.trip_distance ∧ r.trip_distance < 50 ∧
  1 < trip_duration_min r ∧ trip_duration_min r < 180

instance (r : Trip) : Decidable (QualityBounds r) := by
  unfold QualityBounds; infer_instance

/-- One filter pass of `.filter(pl.rand(seed=42) < 0.02)` (app.py line
78): the generator hands the i-th draw `r i` to the row at position i,
and the row is kept when its draw is below the threshold 0.02. -/
def sampleFrom (r : Nat → ℚ) : Nat → List Trip → List Trip
  | _, [] => []
  | i, a :: l =>
      if r i < 2 / 100 then a :: sampleFrom r (i + 1) l
      else sampleFrom r (i + 1) l

/-- The Sampler body (app.py lines 78-79): the seeded probability
filter followed by `.head(100_000)`, parametric in the random stream. -/
def sample_rows (r : Nat → ℚ) (t : List Trip) : List Trip :=
  (sampleFrom r 0 t).take 100000

/-- The index positions the Sampler selects (before looking at the row
values): position i is selected when the i-th draw is below 0.02, and
only the first 100_000 selected positions survive `.head`. -/
def selectedFrom (r : Nat → ℚ) : Nat → List Trip → List Nat
  | _, [] => []
  | i, _ :: l =>
      if r i < 2 / 100 then i :: selectedFrom r (i + 1) l
      else selectedFrom r (i + 1) l

/-- The selected index set of `sample_rows`. -/
def selectedIdx (r : Nat → ℚ) (t : List Trip) : List Nat :=
  (selectedFrom r 0 t).take 100000

/-- Modelled from the spec: `pl.rand(seed=42)` (app.py line 78) draws
one pseudo-random value in [0, 1) per row position from a deterministic
generator keyed by the fixed seed 42.  The library's exact algorithm is
not part of this repository, so the draw at position i is modelled as a
32-bit linear-congruential value keyed by the seed. -/
def rand42 (i : Nat) : ℚ :=
  (((1013904223 * i + 42) % 4294967296 : ℕ) : ℚ) / 4294967296

/-- The Sampler of app.py lines 78-79 with its fixed seed 42. -/
def sampler (t : List Trip) : List Trip :=
  sample_rows rand42 t

/-- Insertion of one element in front of the first element it `le`-s:
the step of the insertion sort used to model polars `sort`. -/
def insertBy (le : α → α → Bool) (a : α) : List α → List α
  | [] => [a]
  | b :: l => if le a b then a :: b :: l else b :: insertBy le a l

/-- Insertion sort by the boolean relation `le`, modelling polars
`sort` (a deterministic total reordering of the rows). -/
def insSort (le : α → α → Bool) : List α → List α
  | [] => []
  | a :: l => insertBy le a (insSort le l)

/-- The smallest `tpep_pickup_datetime` in the table
(`df["tpep_pickup_datetime"].min()`, app.py line 94); 0 on the empty
table, where the code would have no value at all. -/
def minTs : List Trip → Int
  | [] => 0
  | r :: l => l.foldl (fun m x => min m x.tpep_pickup_datetime)
      r.tpep_pickup_datetime

/-- The largest `tpep_pickup_datetime` in the table
(`df["tpep_pickup_datetime"].max()`, app.py line 95); 0 on the empty
table. -/
def maxTs : List Trip → Int
  | [] => 0
  | r :: l => l.foldl (fun m x => max m x.tpep_pickup_datetime)
      r.tpep_pickup_datetime

/-- The lower end of the default date range (app.py line 94):
`min().date()`. -/
def dateLo (t : List Trip) : Int := minTs t / 86400

/-- The upper end of the default date range (app.py line 95):
`max().date()`. -/
def dateHi (t : List Trip) : Int := maxTs t / 86400

/-- The payment-type codes observed in the table, sorted and without
duplicates (`sorted(df["payment_type"].unique().to_list())`, app.py
lines 102-103). -/
def observedPayments (t : List Trip) : List Int :=
  insSort (fun a b => decide (a ≤ b)) (t.map Trip.payment_type).dedup

/-- The Interactive Filter (app.py lines 106-110): pickup date between
`dlo` and `dhi` (inclusive), pickup hour between `hlo` and `hhi`
(inclusive), payment type in `ps`; the three predicates conjoined. -/
def interactiveFilter (dlo dhi hlo hhi : Int) (ps : List Int)
    (t : List Trip) : List Trip :=
  t.filter fun r =>
    decide (dlo ≤ pickup_date r) && decide (pickup_date r ≤ dhi) &&
    decide (hlo ≤ pickup_hour r) && decide (pickup_hour r ≤ hhi) &&
    decide (r.payment_type ∈ ps)

/-- Group a key list and count each key, keys in first-seen order
(polars `group_by(...).agg(pl.count())`). -/
def groupCounts (keys : List κ) [DecidableEq κ] : List (κ × Nat) :=
  keys.dedup.map fun k => (k, keys.count k)

/-- The `top_pickups` aggregate (app.py lines 128-135): group by
`PULocationID`, count, sort by count descending, take 10, inner-join
with the zone lookup on `LocationID` to attach the zone name.  The
lookup has one row per location id, modelled by `find?`; rows without
a match are dropped, as an inner join drops them. -/
def top_pickups (t : List Trip) (zones : List ZoneRow) :
    List (Int × Nat × String) :=
  ((insSort (fun a b => decide (b.2 ≤ a.2))
      (groupCounts (t.map Trip.PULocationID))).take 10).filterMap
    fun p => (zones.find? fun z => decide (z.LocationID = p.1)).map
      fun z => (p.1, p.2, z.Zone)

/-- The rational-valued columns of the derived frame, by their polars
name: the raw money/distance columns plus the derived
`trip_duration_min` and `tip_pct` (app.py lines 57-71).  Any other
name is absent, as in the frame. -/
def qCol : String → Option (Trip → ℚ)
  | "fare_amount" => some Trip.fare_amount
  | "tip_amount" => some Trip.tip_amount
  | "total_amount" => some Trip.total_amount
  | "trip_distance" => some Trip.trip_distance
  | "trip_duration_min" => some trip_duration_min
  | "tip_pct" => some tip_pct
  | _ => none

/-- The integer-valued columns of the derived frame, by their polars
name: the raw id/timestamp columns plus the derived `pickup_hour`,
`pickup_weekday` and `pickup_date` (app.py lines 57-60).  Any other
name is absent, as in the frame. -/
def iCol : String → Option (Trip → Int)
  | "tpep_pickup_datetime" => some Trip.tpep_pickup_datetime
  | "tpep_dropoff_datetime" => some Trip.tpep_dropoff_datetime
  | "PULocationID" => some Trip.PULocationID
  | "payment_type" => some Trip.payment_type
  | "pickup_hour" => some pickup_hour
  | "pickup_weekday" => some pickup_weekday
  | "pickup_date" => some pickup_date
  | _ => none

/-- Mean of a list of rationals (polars `.mean()`), 0 on the empty
list. -/
def meanQ (l : List ℚ) : ℚ :=
  if l.length = 0 then 0 else l.sum / l.length

/-- Mean of a named column (`filtered_df[name].mean()`): fails with
the polars error when the column does not exist in the frame. -/
def colMean (name : String) (t : List Trip) : Except String ℚ :=
  match qCol name with
  | some f => Except.ok (meanQ (t.map f))
  | none => Except.error ("ColumnNotFoundError: " ++ name)

/-- Sum of a named column (`filtered_df[name].sum()`): fails with the
polars error when the column does not exist in the frame. -/
def colSum (name : String) (t : List Trip) : Except String ℚ :=
  match qCol name with
  | some f => Except.ok (t.map f).sum
  | none => Except.error ("ColumnNotFoundError: " ++ name)

/-- Metric "Total Trips" (app.py line 117): `filtered_df.height`. -/
def metricTotalTrips (t : List Trip) : Nat := t.length

/-- Metric "Avg Fare" (app.py line 118). -/
def metricAvgFare (t : List Trip) : Except String ℚ :=
  colMean "fare_amount" t

/-- Metric "Total Revenue" (app.py line 119). -/
def metricTotalRevenue (t : List Trip) : Except String ℚ :=
  colSum "total_amount" t

/-- Metric "Avg Distance" (app.py line 120). -/
def metricAvgDistance (t : List Trip) : Except String ℚ :=
  colMean "trip_distance" t

/-- Metric "Avg Duration" (app.py line 121):
`filtered_df["trip_duration_minutes"].mean()` — note the column name
the code asks for. -/
def metricAvgDuration (t : List Trip) : Except String ℚ :=
  colMean "trip_duration_minutes" t

/-- The `heatmap_df` aggregate (app.py lines 212-217): group by the
columns named `"pickup_day_of_week"` and `"pickup_hour"`, count rows,
sort by the pair of keys.  Column lookup is by name, as polars does
it; a missing column is the polars `ColumnNotFoundError`. -/
def heatmap_df (t : List Trip) :
    Except String (List ((Int × Int) × Nat)) :=
  match iCol "pickup_day_of_week" with
  | none => Except.error "ColumnNotFoundError: pickup_day_of_week"
  | some fw =>
    match iCol "pickup_hour" with
    | none => Except.error "ColumnNotFoundError: pickup_hour"
    | some fh =>
      Except.ok (insSort
        (fun a b => decide
          (a.1.1 < b.1.1 ∨ (a.1.1 = b.1.1 ∧ a.1.2 ≤ b.1.2)))
        (groupCounts (t.map fun r => (fw r, fh r))))

/-- Pivot of the grouped counts (app.py lines 219-223): one row per
distinct weekday value present, one column per distinct hour value
present, missing cells filled with 0 (`fill_null(0)`). -/
def pivotCounts (g : List ((Int × Int) × Nat)) :
    List (Int × List Nat) :=
  let cols := (g.map fun e => e.1.2).dedup
  (g.map fun e => e.1.1).dedup.map fun w =>
    (w, cols.map fun h =>
      ((g.find? fun e => decide (e.1 = (w, h))).map fun e => e.2).getD 0)

/-- The `heatmap_pivot` table (app.py lines 219-223), propagating the
column-lookup failure of `heatmap_df`. -/
def heatmap_pivot (t : List Trip) :
    Except String (List (Int × List Nat)) :=
  (heatmap_df t).map pivotCounts

end TaxiApp

namespace TaxiApp

/-- Example rows for the §8 concrete scenario: fares [10, 0, 250],
distances [2, 1, 60], durations [15, 5, 200] minutes. -/
def exTrip1 : Trip :=
  { tpep_pickup_datetime := 0, tpep_dropoff_datetime := 900,
    PULocationID := 1, fare_amount := 10, tip_amount := 0,
    total_amount := 10, trip_distance := 2, payment_type := 1 }

/-- Second scenario row: fare 0, distance 1, duration 5 minutes. -/
def exTrip2 : Trip :=
  { tpep_pickup_datetime := 0, tpep_dropoff_datetime := 300,
    PULocationID := 2, fare_amount := 0, tip_amount := 0,
    total_amount := 0, trip_distance := 1, payment_type := 1 }

/-- Third scenario row: fare 250, distance 60, duration 200 minutes. -/
def exTrip3 : Trip :=
  { tpep_pickup_datetime := 0, tpep_dropoff_datetime := 12000,
    PULocationID := 3, fare_amount := 250, tip_amount := 0,
    total_amount := 250, trip_distance := 60, payment_type := 2 }

/-- A trip at pickup location `loc`, otherwise like `exTrip1`. -/
def mkTrip (loc : Int) : Trip :=
  { tpep_pickup_datetime := 0, tpep_dropoff_datetime := 900,
    PULocationID := loc, fare_amount := 10, tip_amount := 0,
    total_amount := 10, trip_distance := 2, payment_type := 1 }

/-- A one-row zone lookup covering location id 1. -/
def exZones : List ZoneRow :=
  [{ LocationID := 1, Zone := "Newark Airport", Borough := "EWR" }]

/-- Ten trips at ten distinct pickup locations. -/
def exTenTrips : List Trip :=
  [mkTrip 1, mkTrip 2, mkTrip 3, mkTrip 4, mkTrip 5,
   mkTrip 6, mkTrip 7, mkTrip 8, mkTrip 9, mkTrip 10]

end TaxiApp

namespace TaxiApp

theorem mem_insertBy {le : α → α → Bool} {a b : α} {l : List α} :
    a ∈ insertBy le b l ↔ a = b ∨ a ∈ l := by
  induction l with
  | nil => simp [insertBy]
  | cons c l ih =>
      by_cases h : le b c
      · simp [insertBy, h]
      · simp only [insertBy, if_neg h, List.mem_cons, ih]
        tauto

theorem mem_insSort {le : α → α → Bool} {a : α} {l : List α} :
    a ∈ insSort le l ↔ a ∈ l := by
  induction l with
  | nil => simp [insSort]
  | cons b l ih => simp [insSort, mem_insertBy, ih]

theorem pairwise_insertBy {le : α → α → Bool}
    (htot : ∀ x y, le x y = true ∨ le y x = true)
    (htrans : ∀ x y z, le x y = true → le y z = true → le x z = true)
    (a : α) :
    ∀ {l : List α}, l.Pairwise (fun x y => le x y = true) →
      (insertBy le a l).Pairwise (fun x y => le x y = true) := by
  intro l
  induction l with
  | nil => intro _; simp [insertBy]
  | cons b l ih =>
      intro hp
      rw [List.pairwise_cons] at hp
      obtain ⟨hb, hl⟩ := hp
      by_cases h : le a b
      · rw [insertBy, if_pos h, List.pairwise_cons]
        refine ⟨?_, List.pairwise_cons.mpr ⟨hb, hl⟩⟩
        intro y hy
        rcases List.mem_cons.mp hy with rfl | hy
        · exact h
        · exact htrans a b y h (hb y hy)
      · rw [insertBy, if_neg h, List.pairwise_cons]
        refine ⟨?_, ih hl⟩
        intro y hy
        rcases mem_insertBy.mp hy with rfl | hy
        · rcases htot y b with h2 | h2
          · exact absurd h2 h
          · exact h2
        · exact hb y hy

theorem pairwise_insSort {le : α → α → Bool}
    (htot : ∀ x y, le x y = true ∨ le y x = true)
    (htrans : ∀ x y z, le x y = true → le y z = true → le x z = true)
    (l : List α) :
    (insSort le l).Pairwise (fun x y => le x y = true) := by
  induction l with
  | nil => simp [insSort]
  | cons a l ih => exact pairwise_insertBy htot htrans a ih

theorem pairwise_filterMap_of {R : α → α → Prop} {S : β → β → Prop}
    (f : α → Option β)
    (h : ∀ a b x y, f a = some x → f b = some y → R a b → S x y) :
    ∀ {l : List α}, l.Pairwise R → (l.filterMap f).Pairwise S := by
  intro l
  induction l with
  | nil => intro _; simp
  | cons a l ih =>
      intro hp
      rw [List.pairwise_cons] at hp
      obtain ⟨ha, hl⟩ := hp
      rw [List.filterMap_cons]
      cases hfa : f a with
      | none => exact ih hl
      | some x =>
          rw [List.pairwise_cons]
          refine ⟨?_, ih hl⟩
          intro y hy
          obtain ⟨b, hb, hfb⟩ := List.mem_filterMap.mp hy
          exact h a b x y hfa hfb (ha b hb)

theorem mem_of_mem_sampleFrom {r : Nat → ℚ} {x : Trip} :
    ∀ {i : Nat} {t : List Trip}, x ∈ sampleFrom r i t → x ∈ t := by
  intro i t
  induction t generalizing i with
  | nil => simp [sampleFrom]
  | cons a l ih =>
      intro hx
      rw [sampleFrom] at hx
      by_cases h : r i < 2 / 100
      · rw [if_pos h] at hx
        rcases List.mem_cons.mp hx with rfl | hx
        · exact List.mem_cons_self _ _
        · exact List.mem_cons_of_mem _ (ih hx)
      · rw [if_neg h] at hx
        exact List.mem_cons_of_mem _ (ih hx)

theorem mem_of_mem_sample_rows {r : Nat → ℚ} {x : Trip}
    {t : List Trip} (hx : x ∈ sample_rows r t) : x ∈ t :=
  mem_of_mem_sampleFrom (List.take_subset _ _ hx)

theorem foldl_tsmin_le (l : List Trip) :
    ∀ m : Int,
      l.foldl (fun m x => min m x.tpep_pickup_datetime) m ≤ m ∧
      ∀ x ∈ l, l.foldl (fun m x => min m x.tpep_pickup_datetime) m ≤
        x.tpep_pickup_datetime := by
  induction l with
  | nil => simp
  | cons a l ih =>
      intro m
      rw [List.foldl_cons]
      obtain ⟨h1, h2⟩ := ih (min m a.tpep_pickup_datetime)
      refine ⟨le_trans h1 (min_le_left _ _), ?_⟩
      intro x hx
      rcases List.mem_cons.mp hx with rfl | hx
      · exact le_trans h1 (min_le_right _ _)
      · exact h2 x hx

theorem le_foldl_tsmax (l : List Trip) :
    ∀ m : Int,
      m ≤ l.foldl (fun m x => max m x.tpep_pickup_datetime) m ∧
      ∀ x ∈ l, x.tpep_pickup_datetime ≤
        l.foldl (fun m x => max m x.tpep_pickup_datetime) m := by
  induction l with
  | nil => simp
  | cons a l ih =>
      intro m
      rw [List.foldl_cons]
      obtain ⟨h1, h2⟩ := ih (max m a.tpep_pickup_datetime)
      refine ⟨le_trans (le_max_left _ _) h1, ?_⟩
      intro x hx
      rcases List.mem_cons.mp hx with rfl | hx
      · exact le_trans (le_max_right _ _) h1
      · exact h2 x hx

theorem minTs_le {t : List Trip} {r : Trip} (h : r ∈ t) :
    minTs t ≤ r.tpep_pickup_datetime := by
  cases t with
  | nil => cases h
  | cons a l =>
      rw [minTs]
      rcases List.mem_cons.mp h with rfl | h
      · exact (foldl_tsmin_le l _).1
      · exact (foldl_tsmin_le l _).2 r h

theorem le_maxTs {t : List Trip} {r : Trip} (h : r ∈ t) :
    r.tpep_pickup_datetime ≤ maxTs t := by
  cases t with
  | nil => cases h
  | cons a l =>
      rw [maxTs]
      rcases List.mem_cons.mp h with rfl | h
      · exact (le_foldl_tsmax l _).1
      · exact (le_foldl_tsmax l _).2 r h

theorem pickup_hour_nonneg (r : Trip) : 0 ≤ pickup_hour r :=
  Int.emod_nonneg _ (by norm_num)

theorem pickup_hour_le (r : Trip) : pickup_hour r ≤ 23 := by
  have := Int.emod_lt_of_pos (r.tpep_pickup_datetime / 3600)
    (show (0 : ℤ) < 24 by norm_num)
  rw [pickup_hour]
  omega

theorem qualityPred_iff (r : Trip) :
    qualityPred r = true ↔ QualityBounds r := by
  rw [qualityPred, QualityBounds]
  simp only [Bool.and_eq_true, decide_eq_true_eq]
  tauto

theorem qualityPred_exTrip1 : qualityPred exTrip1 = true := by
  simp only [qualityPred, exTrip1, trip_duration_min, Bool.and_eq_true,
    decide_eq_true_eq]
  norm_num

theorem qualityPred_exTrip2 : qualityPred exTrip2 = false := by
  simp only [qualityPred, exTrip2, trip_duration_min]
  norm_num

theorem qualityPred_exTrip3 : qualityPred exTrip3 = false := by
  simp only [qualityPred, exTrip3, trip_duration_min]
  norm_num

theorem rand42_zero_lt : rand42 0 < 2 / 100 := by norm_num [rand42]

theorem rand42_one_not_lt : ¬ rand42 1 < 2 / 100 := by norm_num [rand42]

theorem sampler_pair (a b : Trip) : sampler [a, b] = [a] := by
  rw [sampler, sample_rows, sampleFrom, if_pos rand42_zero_lt,
    sampleFrom, if_neg rand42_one_not_lt, sampleFrom]
  exact List.take_of_length_le (by simp)

end TaxiApp

namespace TaxiApp

/-- C1: every row surviving the Quality Filter — and with it every row
of the sampled table and of every FilteredView derived from it —
satisfies `0 < fare_amount < 200`, `0 < trip_distance < 50` and
`1 < trip_duration_min < 180`; and on the 3-row scenario table with
fares [10, 0, 250], distances [2, 1, 60] and durations [15, 5, 200]
minutes, exactly the first row is retained. -/
theorem quality_filter_invariant :
    (∀ (t : List Trip) (r : Trip), r ∈ qualityFilter t →
      QualityBounds r) ∧
    (∀ (t : List Trip) (r : Trip), r ∈ sampler (qualityFilter t) →
      QualityBounds r) ∧
    (∀ (dlo dhi hlo hhi : Int) (ps : List Int) (t : List Trip)
      (r : Trip),
      r ∈ interactiveFilter dlo dhi hlo hhi ps
        (sampler (qualityFilter t)) → QualityBounds r) ∧
    qualityFilter [exTrip1, exTrip2, exTrip3] = [exTrip1] := by
  have base : ∀ (t : List Trip) (r : Trip), r ∈ qualityFilter t →
      QualityBounds r := by
    intro t r hr
    exact (qualityPred_iff r).mp (List.mem_filter.mp hr).2
  refine ⟨base, ?_, ?_, ?_⟩
  · intro t r hr
    exact base t r (mem_of_mem_sample_rows hr)
  · intro dlo dhi hlo hhi ps t r hr
    exact base t r (mem_of_mem_sample_rows (List.mem_filter.mp hr).1)
  · rw [qualityFilter]
    simp [List.filter_cons, qualityPred_exTrip1, qualityPred_exTrip2,
      qualityPred_exTrip3]

/-- Witness for C1 at the first scenario row. -/
theorem quality_filter_invariant_witness : QualityBounds exTrip1 :=
  quality_filter_invariant.1 [exTrip1] exTrip1
    (List.mem_filter.mpr ⟨List.mem_cons_self _ _, qualityPred_exTrip1⟩)

/-- C6: the Interactive Filter with the full date range (minimum to
maximum pickup date present), the full hour range 0-23 and the full
set of observed payment types returns its input table unchanged. -/
theorem interactive_filter_full_range_id (t : List Trip) :
    interactiveFilter (dateLo t) (dateHi t) 0 23 (observedPayments t)
      t = t := by
  rw [interactiveFilter, List.filter_eq_self]
  intro r hr
  simp only [Bool.and_eq_true, decide_eq_true_eq]
  refine ⟨⟨⟨⟨?_, ?_⟩, ?_⟩, ?_⟩, ?_⟩
  · exact Int.ediv_le_ediv (by norm_num) (minTs_le hr)
  · exact Int.ediv_le_ediv (by norm_num) (le_maxTs hr)
  · exact pickup_hour_nonneg r
  · exact pickup_hour_le r
  · rw [observedPayments, mem_insSort, List.mem_dedup]
    exact List.mem_map_of_mem Trip.payment_type hr

/-- C7: the Interactive Filter with an empty payment-type set returns
the empty table, whatever the date and hour ranges. -/
theorem interactive_filter_empty_payments (dlo dhi hlo hhi : Int)
    (t : List Trip) :
    interactiveFilter dlo dhi hlo hhi [] t = [] := by
  rw [interactiveFilter, List.filter_eq_nil_iff]
  intro r hr
  simp

/-- C9: the Sampler is deterministic under its fixed seed — two runs
on the same filtered table produce the same rows in the same order. -/
theorem sampler_deterministic (t t2 : List Trip) (h : t = t2) :
    sampler t = sampler t2 := by rw [h]

/-- Witness for C9 on a concrete one-row table. -/
theorem sampler_deterministic_witness :
    sampler [exTrip1] = sampler [exTrip1] :=
  sampler_deterministic [exTrip1] [exTrip1] rfl

theorem sampleFrom_id_of_all_below {r : Nat → ℚ} :
    ∀ (l : List Trip) (i : Nat),
      (∀ k, k < l.length → r (i + k) < 2 / 100) →
      sampleFrom r i l = l := by
  intro l
  induction l with
  | nil => intro i _; rfl
  | cons a l ih =>
      intro i h
      have h0 : r i < 2 / 100 := by
        simpa using h 0 (Nat.succ_pos _)
      rw [sampleFrom, if_pos h0]
      congr 1
      apply ih
      intro k hk
      have := h (k + 1) (Nat.succ_lt_succ hk)
      rwa [show i + (k + 1) = i + 1 + k by omega] at this

/-- C3 counterexample: a 2-row filtered table, far below the cap of
100_000, is not returned unchanged by the Sampler — the second row's
draw is not below the 0.02 threshold, so the row is dropped. -/
theorem sampler_drops_below_cap :
    ([exTrip1, exTrip2] : List Trip).length ≤ 100000 ∧
    sampler [exTrip1, exTrip2] ≠ [exTrip1, exTrip2] := by
  refine ⟨by simp, ?_⟩
  rw [sampler_pair]
  simp [exTrip1, exTrip2]

theorem length_sampleFrom_le {r : Nat → ℚ} :
    ∀ (l : List Trip) (i : Nat),
      (sampleFrom r i l).length ≤ l.length := by
  intro l
  induction l with
  | nil => intro i; exact le_refl _
  | cons a l ih =>
      intro i
      rw [sampleFrom]
      by_cases h : r i < 2 / 100
      · rw [if_pos h, List.length_cons, List.length_cons]
        exact Nat.succ_le_succ (ih (i + 1))
      · rw [if_neg h, List.length_cons]
        exact le_trans (ih (i + 1)) (Nat.le_succ _)

theorem length_sampleFrom_lt {r : Nat → ℚ} :
    ∀ (l : List Trip) (i k : Nat), k < l.length →
      ¬ r (i + k) < 2 / 100 →
      (sampleFrom r i l).length < l.length := by
  intro l
  induction l with
  | nil => intro i k hk; cases hk
  | cons a l ih =>
      intro i k hk hnk
      rw [sampleFrom]
      cases k with
      | zero =>
          rw [if_neg (by simpa using hnk), List.length_cons]
          exact Nat.lt_succ_of_le (length_sampleFrom_le l (i + 1))
      | succ k =>
          have hk2 : k < l.length := Nat.lt_of_succ_lt_succ hk
          have hnk2 : ¬ r (i + 1 + k) < 2 / 100 := by
            rwa [show i + 1 + k = i + (k + 1) by omega]
          by_cases h : r i < 2 / 100
          · rw [if_pos h, List.length_cons, List.length_cons]
            exact Nat.succ_lt_succ (ih (i + 1) k hk2 hnk2)
          · rw [if_neg h, List.length_cons]
            exact Nat.lt_succ_of_lt (ih (i + 1) k hk2 hnk2)

/-- C3 amended: the Sampler keeps only the rows whose seeded per-row
draw is below 0.02 and then truncates to 100_000 rows; a filtered
table of at most 100_000 rows is returned unchanged exactly in the
case that every one of its rows draws below the threshold — if any row
draws at or above it, that row is dropped and the output is a strictly
shorter table. -/
theorem sample_rows_id_of_all_below (r : Nat → ℚ) (t : List Trip)
    (hlen : t.length ≤ 100000) :
    sample_rows r t = t ↔ ∀ k, k < t.length → r k < 2 / 100 := by
  constructor
  · intro h
    intro k hk
    by_contra hnk
    have hlt : (sampleFrom r 0 t).length < t.length :=
      length_sampleFrom_lt t 0 k hk (by simpa using hnk)
    have : (sample_rows r t).length < t.length := by
      rw [sample_rows, List.length_take]
      exact lt_of_le_of_lt (min_le_right _ _) hlt
    rw [h] at this
    exact lt_irrefl _ this
  · intro hall
    rw [sample_rows,
      sampleFrom_id_of_all_below t 0 (by simpa using hall)]
    exact List.take_of_length_le hlen

/-- Witness for the amended C3: a constant stream below the threshold
returns the one-row table unchanged. -/
theorem sample_rows_id_witness :
    sample_rows (fun _ => 0) [exTrip1] = [exTrip1] :=
  (sample_rows_id_of_all_below (fun _ => 0) [exTrip1] (by simp)).mpr
    (fun k _ => by norm_num)

/-- C4 counterexample: the Sampler's selection is not independent of
row order — swapping a 2-row table changes which logical row is
selected (the first position draws below 0.02, the second does not). -/
theorem sampler_not_order_independent :
    ¬ ∀ t t2 : List Trip, t.Perm t2 →
      (sampler t).Perm (sampler t2) := by
  intro h
  have hp : ([exTrip1, exTrip2] : List Trip).Perm [exTrip2, exTrip1] :=
    List.Perm.swap _ _ _
  have := h _ _ hp
  rw [sampler_pair, sampler_pair] at this
  have h12 : exTrip1 = exTrip2 :=
    List.mem_singleton.mp (this.mem_iff.mp (List.mem_singleton_self _))
  simp [exTrip1, exTrip2, Trip.mk.injEq] at h12

theorem selectedFrom_length_only {r : Nat → ℚ} :
    ∀ (t t2 : List Trip) (i : Nat), t.length = t2.length →
      selectedFrom r i t = selectedFrom r i t2 := by
  intro t
  induction t with
  | nil =>
      intro t2 i h
      cases t2 with
      | nil => rfl
      | cons b l2 => simp at h
  | cons a l ih =>
      intro t2 i h
      cases t2 with
      | nil => simp at h
      | cons b l2 =>
          rw [selectedFrom, selectedFrom]
          simp only [List.length_cons, Nat.succ.injEq] at h
          rw [ih l2 (i + 1) h]

theorem sampleFrom_eq_selected {r : Nat → ℚ} :
    ∀ (t pre : List Trip),
      sampleFrom r pre.length t =
        (selectedFrom r pre.length t).filterMap
          fun j => (pre ++ t)[j]? := by
  intro t
  induction t with
  | nil => intro pre; rfl
  | cons a l ih =>
      intro pre
      have hlen : (pre ++ [a]).length = pre.length + 1 := by simp
      have happ : (pre ++ [a]) ++ l = pre ++ a :: l := by simp
      have ih2 := ih (pre ++ [a])
      rw [hlen, happ] at ih2
      rw [sampleFrom, selectedFrom]
      by_cases h : r pre.length < 2 / 100
      · rw [if_pos h, if_pos h, List.filterMap_cons]
        have hget : (pre ++ a :: l)[pre.length]? = some a := by
          rw [List.getElem?_append_right (le_refl _)]
          simp
        rw [hget, ih2]
      · rw [if_neg h, if_neg h, ih2]

/-- C4 amended: the Sampler selects row positions, not logical rows —
the selected index set depends only on the table's length (so
reordering the table keeps the positions, not the rows), and the
output is exactly the rows found at the selected positions, capped at
100_000. -/
theorem sampler_selects_positions (r : Nat → ℚ) (t t2 : List Trip)
    (h : t.length = t2.length) :
    selectedIdx r t = selectedIdx r t2 ∧
    sample_rows r t =
      ((selectedFrom r 0 t).filterMap fun j => t[j]?).take 100000 := by
  constructor
  · rw [selectedIdx, selectedIdx, selectedFrom_length_only t t2 0 h]
  · have := sampleFrom_eq_selected (r := r) t []
    simp only [List.length_nil, List.nil_append] at this
    rw [sample_rows, this]

/-- Witness for the amended C4 on two concrete one-row tables. -/
theorem sampler_selects_positions_witness :
    selectedIdx (fun _ => 0) [exTrip1] =
      selectedIdx (fun _ => 0) [exTrip2] ∧
    sample_rows (fun _ => 0) [exTrip1] =
      ((selectedFrom (fun _ => 0) 0 [exTrip1]).filterMap
        fun j => [exTrip1][j]?).take 100000 :=
  sampler_selects_positions (fun _ => 0) [exTrip1] [exTrip2] rfl

/-- C2: the heatmap aggregate never produces a matrix at all — it
groups by the column name `"pickup_day_of_week"`, but the Feature
Deriver names the derived column `"pickup_weekday"` (app.py line 59),
so the lookup fails with `ColumnNotFoundError` on every input table. -/
theorem heatmap_pivot_column_not_found (t : List Trip) :
    heatmap_pivot t =
      Except.error "ColumnNotFoundError: pickup_day_of_week" := rfl

/-- C5: the mean-duration metric never produces a value — it reads the
column `"trip_duration_minutes"`, but the Feature Deriver names the
derived column `"trip_duration_min"` (app.py line 65), so the lookup
fails with `ColumnNotFoundError` on every FilteredView. -/
theorem avg_duration_metric_column_not_found (t : List Trip) :
    metricAvgDuration t =
      Except.error "ColumnNotFoundError: trip_duration_minutes" := rfl

theorem countDesc_total (x y : κ × Nat) :
    decide (y.2 ≤ x.2) = true ∨ decide (x.2 ≤ y.2) = true := by
  rcases Nat.le_total y.2 x.2 with h | h <;> simp [h]

theorem countDesc_trans (x y z : κ × Nat)
    (h1 : decide (y.2 ≤ x.2) = true)
    (h2 : decide (z.2 ≤ y.2) = true) :
    decide (z.2 ≤ x.2) = true := by
  simp only [decide_eq_true_eq] at h1 h2 ⊢
  exact le_trans h2 h1

/-- C8: the Top-N pickup aggregate has at most 10 rows, its rows are
sorted by trip count in descending order, and every returned location
id carries the zone name of a matching ZoneLookup row. -/
theorem top_pickups_spec (t : List Trip) (zones : List ZoneRow) :
    (top_pickups t zones).length ≤ 10 ∧
    (top_pickups t zones).Pairwise (fun x y => y.2.1 ≤ x.2.1) ∧
    ∀ x ∈ top_pickups t zones, ∃ z ∈ zones,
      z.LocationID = x.1 ∧ x.2.2 = z.Zone := by
  refine ⟨?_, ?_, ?_⟩
  · rw [top_pickups]
    refine le_trans (List.length_filterMap_le _ _) ?_
    rw [List.length_take]
    exact min_le_left _ _
  · rw [top_pickups]
    refine pairwise_filterMap_of _ ?_
      (List.Pairwise.sublist (List.take_sublist _ _)
        (pairwise_insSort countDesc_total countDesc_trans _))
    intro a b x y hfa hfb hR
    obtain ⟨za, _, rfl⟩ := Option.map_eq_some'.mp hfa
    obtain ⟨zb, _, rfl⟩ := Option.map_eq_some'.mp hfb
    exact of_decide_eq_true hR
  · intro x hx
    rw [top_pickups] at hx
    obtain ⟨p, _, hfp⟩ := List.mem_filterMap.mp hx
    obtain ⟨z, hz, rfl⟩ := Option.map_eq_some'.mp hfp
    have hzp := List.find?_some hz
    simp only [decide_eq_true_eq] at hzp
    exact ⟨z, List.mem_of_find?_eq_some hz, hzp, rfl⟩

/-- Witness for C8 on a one-row table and a matching lookup row. -/
theorem top_pickups_spec_witness :
    ∃ z ∈ exZones,
      z.LocationID = ((1 : Int), (1 : Nat), "Newark Airport").1 ∧
      ((1 : Int), (1 : Nat), "Newark Airport").2.2 = z.Zone :=
  (top_pickups_spec [exTrip1] exZones).2.2
    (1, 1, "Newark Airport") (by decide)

/-- C10: the Top-N join is an inner join — every returned row has a
matching ZoneLookup entry, so location ids absent from the lookup are
silently dropped, and on a 10-location table with an empty lookup the
aggregate returns no rows at all, fewer than 10. -/
theorem top_pickups_inner_join_drops :
    (∀ (t : List Trip) (zones : List ZoneRow),
      ∀ x ∈ top_pickups t zones, ∃ z ∈ zones, z.LocationID = x.1) ∧
    (exTenTrips.map Trip.PULocationID).dedup.length = 10 ∧
    top_pickups exTenTrips [] = [] := by
  refine ⟨?_, by decide, by decide⟩
  intro t zones x hx
  rw [top_pickups] at hx
  obtain ⟨p, _, hfp⟩ := List.mem_filterMap.mp hx
  obtain ⟨z, hz, rfl⟩ := Option.map_eq_some'.mp hfp
  have hzp := List.find?_some hz
  simp only [decide_eq_true_eq] at hzp
  exact ⟨z, List.mem_of_find?_eq_some hz, hzp⟩

/-- Witness for C10 on a one-row table and a matching lookup row. -/
theorem top_pickups_inner_join_drops_witness :
    ∃ z ∈ exZones,
      z.LocationID = ((1 : Int), (1 : Nat), "Newark Airport").1 :=
  top_pickups_inner_join_drops.1 [exTrip1] exZones
    (1, 1, "Newark Airport") (by decide)

end TaxiApp
